import Mathlib

set_option maxRecDepth 100000
set_option linter.unusedVariables false

/-!
Verification of the RMI file-synchronization server core: the versioned
master-file store (`FileHandler`), the sync ledger (`SyncRecord` table), the
authenticated `Dispatcher` with its four remote operations, and the response
envelope (`create_response` / `create_sync_response`).  The definitions are a
shallow embedding of the Python sources `server/dispatcher.py`,
`server/file_handler.py`, `common/protocol.py`, `common/auth.py` and
`server/threads.py`; file contents are modelled as byte lists, wall-clock
reads (`time.time()`) and freshly drawn UUIDs are explicit parameters, and
Python dicts are association lists with first-match lookup and in-place
replacement on key collision.
-/

namespace MD5

/-- 2^32 - 1, the mask for 32-bit words. -/
def mask32 : Nat := 4294967295

/-- Addition modulo 2^32. -/
def add32 (a b : Nat) : Nat := (a + b) % 4294967296

/-- Left-rotation of a 32-bit word by `n` bits (0 < n < 32 in all uses). -/
def rotl32 (x n : Nat) : Nat :=
  ((x <<< n) ||| (x >>> (32 - n))) &&& mask32

/-- Bitwise complement within 32 bits. -/
def not32 (x : Nat) : Nat := x ^^^ mask32

/-- The 64 sine-derived round constants of RFC 1321. -/
def K : List Nat :=
  [0xd76aa478, 0xe8c7b756, 0x242070db, 0xc1bdceee,
   0xf57c0faf, 0x4787c62a, 0xa8304613, 0xfd469501,
   0x698098d8, 0x8b44f7af, 0xffff5bb1, 0x895cd7be,
   0x6b901122, 0xfd987193, 0xa679438e, 0x49b40821,
   0xf61e2562, 0xc040b340, 0x265e5a51, 0xe9b6c7aa,
   0xd62f105d, 0x02441453, 0xd8a1e681, 0xe7d3fbc8,
   0x21e1cde6, 0xc33707d6, 0xf4d50d87, 0x455a14ed,
   0xa9e3e905, 0xfcefa3f8, 0x676f02d9, 0x8d2a4c8a,
   0xfffa3942, 0x8771f681, 0x6d9d6122, 0xfde5380c,
   0xa4beea44, 0x4bdecfa9, 0xf6bb4b60, 0xbebfbc70,
   0x289b7ec6, 0xeaa127fa, 0xd4ef3085, 0x04881d05,
   0xd9d4d039, 0xe6db99e5, 0x1fa27cf8, 0xc4ac5665,
   0xf4292244, 0x432aff97, 0xab9423a7, 0xfc93a039,
   0x655b59c3, 0x8f0ccc92, 0xffeff47d, 0x85845dd1,
   0x6fa87e4f, 0xfe2ce6e0, 0xa3014314, 0x4e0811a1,
   0xf7537e82, 0xbd3af235, 0x2ad7d2bb, 0xeb86d391]

/-- The per-round left-rotation amounts of RFC 1321. -/
def S : List Nat :=
  [7, 12, 17, 22, 7, 12, 17, 22, 7, 12, 17, 22, 7, 12, 17, 22,
   5,  9, 14, 20, 5,  9, 14, 20, 5,  9, 14, 20, 5,  9, 14, 20,
   4, 11, 16, 23, 4, 11, 16, 23, 4, 11, 16, 23, 4, 11, 16, 23,
   6, 10, 15, 21, 6, 10, 15, 21, 6, 10, 15, 21, 6, 10, 15, 21]

/-- One of the 64 MD5 compression steps on state `(A, B, C, D)` with message
    block `M` (16 little-endian words), step index `i`. -/
def md5Step (M : List Nat) (st : Nat × Nat × Nat × Nat) (i : Nat) :
    Nat × Nat × Nat × Nat :=
  let (A, B, C, D) := st
  let Fg : Nat × Nat :=
    if i < 16 then ((B &&& C) ||| (not32 B &&& D), i)
    else if i < 32 then ((D &&& B) ||| (not32 D &&& C), (5 * i + 1) % 16)
    else if i < 48 then (B ^^^ C ^^^ D, (3 * i + 5) % 16)
    else (C ^^^ (B ||| not32 D), (7 * i) % 16)
  let F2 := (Fg.1 + A + K.getD i 0 + M.getD Fg.2 0) % 4294967296
  (D, add32 B (rotl32 F2 (S.getD i 0)), B, C)

/-- Process one 512-bit block: run the 64 steps and add the result into the
    running state. -/
def md5Block (st : Nat × Nat × Nat × Nat) (M : List Nat) :
    Nat × Nat × Nat × Nat :=
  let r := (List.range 64).foldl (md5Step M) st
  (add32 st.1 r.1, add32 st.2.1 r.2.1, add32 st.2.2.1 r.2.2.1,
   add32 st.2.2.2 r.2.2.2)

/-- Pack bytes into 32-bit little-endian words (input length a multiple of 4). -/
def toWords : List Nat → List Nat
  | b0 :: b1 :: b2 :: b3 :: rest =>
      (b0 + 256 * (b1 + 256 * (b2 + 256 * b3))) :: toWords rest
  | _ => []

/-- Split a word list into 16-word blocks (input length a multiple of 16). -/
def chunkWords : List Nat → List (List Nat)
  | w0 :: w1 :: w2 :: w3 :: w4 :: w5 :: w6 :: w7 ::
    w8 :: w9 :: w10 :: w11 :: w12 :: w13 :: w14 :: w15 :: rest =>
      [w0, w1, w2, w3, w4, w5, w6, w7,
       w8, w9, w10, w11, w12, w13, w14, w15] :: chunkWords rest
  | _ => []

/-- The eight little-endian bytes of the 64-bit message bit length. -/
def lenBytes (bitLen : Nat) : List Nat :=
  (List.range 8).map (fun i => bitLen / 256 ^ i % 256)

/-- MD5 padding: append `0x80`, zero bytes to reach 56 mod 64, then the
    64-bit little-endian bit length. -/
def padMsg (msg : List Nat) : List Nat :=
  let len := msg.length
  let padZeros := (119 - len % 64) % 64
  msg ++ [128] ++ List.replicate padZeros 0 ++ lenBytes (8 * len)

/-- The four-word MD5 state after digesting `msg` (a byte list). -/
def md5Words (msg : List Nat) : Nat × Nat × Nat × Nat :=
  (chunkWords (toWords (padMsg msg))).foldl md5Block
    (0x67452301, 0xefcdab89, 0x98badcfe, 0x10325476)

/-- The four little-endian bytes of a 32-bit word. -/
def wordLE (w : Nat) : List Nat :=
  [w % 256, w / 256 % 256, w / 65536 % 256, w / 16777216 % 256]

/-- The 16-byte MD5 digest of a byte list. -/
def md5Bytes (msg : List Nat) : List Nat :=
  let r := md5Words msg
  wordLE r.1 ++ wordLE r.2.1 ++ wordLE r.2.2.1 ++ wordLE r.2.2.2

/-- Lower-case hex digit for a value below 16. -/
def hexDigit (n : Nat) : Char :=
  Char.ofNat (if n < 10 then 48 + n else 87 + n)

/-- Two-character lower-case hex rendering of one byte. -/
def byteHex (b : Nat) : String :=
  String.mk [hexDigit (b / 16), hexDigit (b % 16)]

/-- Lower-case hex digest string, as Python hashlib hexdigest produces. -/
def hexdigest (msg : List Nat) : String :=
  String.join ((md5Bytes msg).map byteHex)

end MD5

example : MD5.md5Bytes [] =
    [212, 29, 140, 217, 143, 0, 178, 4, 233, 128, 9, 152, 236, 248, 66, 126] := by
  decide

example : MD5.hexdigest [97, 98, 99] = "900150983cd24fb0d6963f7d28e17f72" := by
  decide

/-! ## Python dict model

Python dicts are embedded as association lists: `lookupD` is key lookup,
`insertD` is `d[k] = v` (replace in place if the key exists, else append),
`memD` is the `k in d` test. -/

/-- Lookup in an association list (first match), the `d.get(k)` / `d[k]` read. -/
def lookupD {α : Type} : List (String × α) → String → Option α
  | [], _ => none
  | (k, v) :: rest, key => if k == key then some v else lookupD rest key

/-- `d[k] = v`: replace the value at an existing key, else append the pair. -/
def insertD {α : Type} : List (String × α) → String → α → List (String × α)
  | [], key, v => [(key, v)]
  | (k, w) :: rest, key, v =>
      if k == key then (k, v) :: rest else (k, w) :: insertD rest key v

/-- The `k in d` membership test. -/
def memD {α : Type} (d : List (String × α)) (key : String) : Bool :=
  (lookupD d key).isSome

/-! ## Response envelope (common/protocol.py) -/

/-- A JSON value as it appears in a response `data` dict: strings, numbers
    (timestamps as abstract ticks), booleans, and the document byte content. -/
inductive JVal : Type
  | s (v : String)
  | n (v : Nat)
  | b (v : Bool)
  | bytes (v : List Nat)
deriving DecidableEq

/-- A response `data` dict. -/
abbrev JObj := List (String × JVal)

/-- The response envelope `{success, timestamp, data?, error?}`;
    `none` models an omitted key. -/
structure Response where
  success : Bool
  timestamp : Nat
  data : Option JObj
  error : Option String
deriving DecidableEq

/-- `create_response` of common/protocol.py: the standard envelope, with
    `data` and `error` keys present only when non-None.  The wall-clock read
    `time.time()` is the explicit parameter `now`. -/
def create_response (success : Bool) (data : Option JObj) (error : Option String)
    (now : Nat) : Response :=
  { success := success, timestamp := now, data := data, error := error }

/-- `create_sync_response` of common/protocol.py: builds the data dict with
    `sync_id` and `timestamp` unconditionally, then `content` and `version`
    when provided.  When `sync_id` is `none` a fresh UUID (`freshId`) is
    drawn; the document content is its UTF-8 byte sequence. -/
def create_sync_response (success : Bool) (content : Option (List Nat))
    (version : Option String) (sync_id : Option String) (freshId : String)
    (now : Nat) : Response :=
  let sid := sync_id.getD freshId
  let data : JObj :=
    [("sync_id", JVal.s sid), ("timestamp", JVal.n now)]
      ++ (match content with | some c => [("content", JVal.bytes c)] | none => [])
      ++ (match version with | some v => [("version", JVal.s v)] | none => [])
  create_response success (some data) none now

/-! ## Authentication (common/auth.py) -/

/-- `verify_user` of common/auth.py.  The users file is modelled as
    `Option` of its parsed dict mapping username to stored password hash
    (`none` when the file is absent or unreadable, where the Python returns
    False).  The hash function (`hash_password`, SHA-256 hexdigest in the
    source) is the parameter `hashFn`: every property proved below holds for
    all hash functions. -/
def verify_user (hashFn : String → String) (username password : String)
    (users : Option (List (String × String))) : Bool :=
  match users with
  | none => false
  | some table =>
      match lookupD table username with
      | some stored => stored == hashFn password
      | none => false

/-! ## VersionedStore (server/file_handler.py) -/

/-- The master-file store: the byte content of the file and its modification
    time.  The reentrant lock is not modelled (operations are atomic steps). -/
structure FileHandler where
  content : List Nat
  lastModified : Nat
deriving DecidableEq

namespace FileHandler

/-- `get_content`: read the file. -/
def get_content (fh : FileHandler) : List Nat := fh.content

/-- `update_content`: overwrite the file; `true` reports success (the
    I/O-fault `except` branch is environment failure, not modelled). -/
def update_content (fh : FileHandler) (c : List Nat) (now : Nat) :
    FileHandler × Bool :=
  ({ content := c, lastModified := now }, true)

/-- `get_version`: the MD5 hexdigest of the current content — the sole
    change-detection fingerprint. -/
def get_version (fh : FileHandler) : String := MD5.hexdigest fh.content

/-- `get_last_modified`: the file modification time. -/
def get_last_modified (fh : FileHandler) : Nat := fh.lastModified

/-- `get_file_status`: `(content, version, last_modified)` snapshot. -/
def get_file_status (fh : FileHandler) : List Nat × String × Nat :=
  (fh.content, MD5.hexdigest fh.content, fh.lastModified)

end FileHandler

/-! ## SyncLedger and Dispatcher (server/dispatcher.py) -/

/-- `SyncRecord.__init__`: one tracked sync operation.  Timestamps are
    abstract ticks; `confirmation_time`/`acknowledgment_time` start as
    Python `None`. -/
structure SyncRecord where
  sync_id : String
  client_ip : String
  username : String
  request_time : Nat
  confirmed : Bool
  acknowledged : Bool
  confirmation_time : Option Nat
  acknowledgment_time : Option Nat
deriving DecidableEq

/-- A freshly constructed `SyncRecord(sync_id, client_ip, username)`. -/
def SyncRecord.opened (sync_id client_ip username : String) (now : Nat) :
    SyncRecord :=
  { sync_id := sync_id, client_ip := client_ip, username := username,
    request_time := now, confirmed := false, acknowledged := false,
    confirmation_time := none, acknowledgment_time := none }

/-- The dispatcher state: the file handler and the in-memory
    `sync_records` dict.  The users file is carried as its parsed table
    (dispatcher holds only the path; `verify_user` re-reads it per call, so
    its contents are part of the observable state).  Logging is
    write-only and not modelled. -/
structure Dispatcher where
  file_handler : FileHandler
  users : Option (List (String × String))
  sync_records : List (String × SyncRecord)
deriving DecidableEq

/-- Ambient configuration: the password hash function used by
    `verify_user` (SHA-256 in the source, universally quantified here). -/
structure Env where
  hashFn : String → String

namespace Dispatcher

/-- `Dispatcher.authenticate`: delegate to `verify_user`; the only effect of
    a failure is a log line, not modelled. -/
def authenticate (env : Env) (d : Dispatcher) (username password : String) :
    Bool :=
  verify_user env.hashFn username password d.users

/-- `Dispatcher.get_file_content`: authenticate, snapshot the file, draw a
    fresh sync id (`newId` models `uuid.uuid4()`), store a `SyncRecord` only
    for RR/RRA, and answer with `create_sync_response` — which receives the
    id for every protocol. -/
def get_file_content (env : Env) (d : Dispatcher)
    (username password client_ip protocol newId : String) (now : Nat) :
    Dispatcher × Response :=
  if !(d.authenticate env username password) then
    (d, create_response false none (some "Authentication failed") now)
  else
    let status := d.file_handler.get_file_status
    let sync_id := newId
    let opened := SyncRecord.opened sync_id client_ip username now
    let d2 :=
      if protocol == "RR" || protocol == "RRA" then
        { d with sync_records := insertD d.sync_records sync_id opened }
      else d
    (d2, create_sync_response true (some status.1) (some status.2.1)
      (some sync_id) sync_id now)

/-- `Dispatcher.check_master_version`: authenticate, then report
    `{version, last_modified}` without touching the ledger. -/
def check_master_version (env : Env) (d : Dispatcher)
    (username password client_ip : String) (now : Nat) :
    Dispatcher × Response :=
  if !(d.authenticate env username password) then
    (d, create_response false none (some "Authentication failed") now)
  else
    (d, create_response true
      (some [("version", JVal.s d.file_handler.get_version),
             ("last_modified", JVal.n d.file_handler.get_last_modified)])
      none now)

/-- `Dispatcher.confirm_sync`: authenticate, reject an unknown id, else set
    `confirmed` and overwrite `confirmation_time` with the current clock. -/
def confirm_sync (env : Env) (d : Dispatcher)
    (username password sync_id client_ip : String) (now : Nat) :
    Dispatcher × Response :=
  if !(d.authenticate env username password) then
    (d, create_response false none (some "Authentication failed") now)
  else if !(memD d.sync_records sync_id) then
    (d, create_response false none (some ("Unknown sync ID: " ++ sync_id)) now)
  else
    match lookupD d.sync_records sync_id with
    | none => (d, create_response false none (some ("Unknown sync ID: " ++ sync_id)) now)
    | some record =>
        let record2 := { record with confirmed := true, confirmation_time := some now }
        ({ d with sync_records := insertD d.sync_records sync_id record2 },
         create_response true
           (some [("sync_id", JVal.s sync_id), ("confirmed", JVal.b true)])
           none now)

/-- `Dispatcher.acknowledge_sync`: symmetric to `confirm_sync` on the
    `acknowledged` field. -/
def acknowledge_sync (env : Env) (d : Dispatcher)
    (username password sync_id client_ip : String) (now : Nat) :
    Dispatcher × Response :=
  if !(d.authenticate env username password) then
    (d, create_response false none (some "Authentication failed") now)
  else if !(memD d.sync_records sync_id) then
    (d, create_response false none (some ("Unknown sync ID: " ++ sync_id)) now)
  else
    match lookupD d.sync_records sync_id with
    | none => (d, create_response false none (some ("Unknown sync ID: " ++ sync_id)) now)
    | some record =>
        let record2 := { record with acknowledged := true, acknowledgment_time := some now }
        ({ d with sync_records := insertD d.sync_records sync_id record2 },
         create_response true
           (some [("sync_id", JVal.s sync_id), ("acknowledged", JVal.b true)])
           none now)

end Dispatcher

/-! ## Request routing (server/dispatcher.py handle_request, server/threads.py) -/

/-- Whether an attribute of a `Dispatcher` instance is a bound method
    (callable) or a plain data attribute. -/
inductive AttrKind : Type
  | callableMethod
  | dataAttr
deriving DecidableEq

/-- The attributes visible on a `Dispatcher` instance: the instance
    attributes set in `__init__` and the methods of the class.  (Attributes
    inherited from `object` are omitted; they only widen the set further.) -/
def dispatcherAttrs : List (String × AttrKind) :=
  [("file_handler", AttrKind.dataAttr),
   ("users_file", AttrKind.dataAttr),
   ("log_file", AttrKind.dataAttr),
   ("sync_records", AttrKind.dataAttr),
   ("_setup_logging", AttrKind.callableMethod),
   ("log_sync_attempt", AttrKind.callableMethod),
   ("handle_request", AttrKind.callableMethod),
   ("authenticate", AttrKind.callableMethod),
   ("get_file_content", AttrKind.callableMethod),
   ("check_master_version", AttrKind.callableMethod),
   ("confirm_sync", AttrKind.callableMethod),
   ("acknowledge_sync", AttrKind.callableMethod)]

/-- Outcome of `Dispatcher.handle_request` routing: either an early failure
    response with no handler invoked, or the invocation of the attribute
    found by `getattr`. -/
inductive RouteResult : Type
  | failure (error : String)
  | invoke (handlerName : String)
deriving DecidableEq

/-- The routing logic of `Dispatcher.handle_request`: `hasattr` /
    `getattr` / `callable` reflection over the instance attributes. -/
def handle_request_route (method : String) : RouteResult :=
  match lookupD dispatcherAttrs method with
  | none => RouteResult.failure ("Method \x27" ++ method ++ "\x27 not found")
  | some AttrKind.dataAttr =>
      RouteResult.failure ("\x27" ++ method ++ "\x27 is not a callable method")
  | some AttrKind.callableMethod => RouteResult.invoke method

/-- The four remote operations the spec names. -/
def remoteOperations : List String :=
  ["get_file_content", "check_master_version", "confirm_sync",
   "acknowledge_sync"]

/-- `RequestHandler.ENDPOINTS` of server/threads.py: the fixed path-to-method
    table of the HTTP layer. -/
def ENDPOINTS : List (String × String) :=
  [("/file/content", "get_file_content"),
   ("/file/version", "check_master_version"),
   ("/sync/confirm", "confirm_sync"),
   ("/sync/acknowledge", "acknowledge_sync")]

/-! ## Operation steps for trace reasoning -/

/-- One invocation of one of the four remote operations, with every
    environment input (credentials, client address, clock tick, fresh UUID)
    explicit. -/
inductive Op : Type
  | getFile (username password client_ip protocol newId : String) (now : Nat)
  | checkVersion (username password client_ip : String) (now : Nat)
  | confirmSync (username password sync_id client_ip : String) (now : Nat)
  | ackSync (username password sync_id client_ip : String) (now : Nat)
deriving DecidableEq

/-- The username presented by an operation. -/
def Op.username : Op → String
  | .getFile u _ _ _ _ _ => u
  | .checkVersion u _ _ _ => u
  | .confirmSync u _ _ _ _ => u
  | .ackSync u _ _ _ _ => u

/-- The password presented by an operation. -/
def Op.password : Op → String
  | .getFile _ p _ _ _ _ => p
  | .checkVersion _ p _ _ => p
  | .confirmSync _ p _ _ _ => p
  | .ackSync _ p _ _ _ => p

/-- The clock tick at which an operation runs. -/
def Op.now : Op → Nat
  | .getFile _ _ _ _ _ t => t
  | .checkVersion _ _ _ t => t
  | .confirmSync _ _ _ _ t => t
  | .ackSync _ _ _ _ t => t

/-- The fresh UUID drawn by a `getFile` step, if any. -/
def Op.newId : Op → Option String
  | .getFile _ _ _ _ nid _ => some nid
  | _ => none

/-- Execute one operation against the dispatcher. -/
def Dispatcher.step (env : Env) (d : Dispatcher) : Op → Dispatcher × Response
  | .getFile u p ip proto nid t => d.get_file_content env u p ip proto nid t
  | .checkVersion u p ip t => d.check_master_version env u p ip t
  | .confirmSync u p sid ip t => d.confirm_sync env u p sid ip t
  | .ackSync u p sid ip t => d.acknowledge_sync env u p sid ip t

/-- Execute a sequence of operations, discarding responses. -/
def Dispatcher.runOps (env : Env) (d : Dispatcher) (ops : List Op) :
    Dispatcher :=
  ops.foldl (fun s op => (s.step env op).1) d

/-- Whether a response carries a `data` dict containing the given key. -/
def responseHasField (r : Response) (key : String) : Bool :=
  match r.data with
  | none => false
  | some o => memD o key

/-! ## Concrete fixtures for witnesses and counterexamples -/

/-- A concrete hash configuration (the identity stand-in; every theorem with
    a quantified `Env` holds for it). -/
def sampleEnv : Env := { hashFn := fun s => s }

/-- A users table with one account whose stored hash matches password
    `pw` under `sampleEnv`. -/
def sampleUsers : List (String × String) := [("alice", "pw")]

/-- A master file holding the two bytes of `hi`. -/
def sampleFH : FileHandler := { content := [104, 105], lastModified := 0 }

/-- A dispatcher with an empty ledger over the sample file and users. -/
def sampleD : Dispatcher :=
  { file_handler := sampleFH, users := some sampleUsers, sync_records := [] }

/-! ## Association-list lemmas -/

theorem lookupD_insertD_self {α : Type} (d : List (String × α)) (k : String)
    (v : α) : lookupD (insertD d k v) k = some v := by
  induction d with
  | nil => simp [insertD, lookupD]
  | cons hd tl ih =>
      obtain ⟨k1, v1⟩ := hd
      cases h : (k1 == k) with
      | true => simp [insertD, lookupD, h]
      | false => simp [insertD, lookupD, h, ih]

theorem lookupD_insertD_ne {α : Type} (d : List (String × α)) (ki kl : String)
    (v : α) (hne : ki ≠ kl) :
    lookupD (insertD d ki v) kl = lookupD d kl := by
  induction d with
  | nil => simp [insertD, lookupD, hne]
  | cons hd tl ih =>
      obtain ⟨k1, v1⟩ := hd
      cases h : (k1 == ki) with
      | true =>
          have hk : k1 = ki := by simpa using h
          simp [insertD, lookupD, h, hk, hne]
      | false => simp [insertD, lookupD, h, ih]

theorem memD_of_lookupD {α : Type} (d : List (String × α)) (k : String)
    (v : α) (h : lookupD d k = some v) : memD d k = true := by
  simp [memD, h]

/-! ## Claims -/

/-- C1: the claim says the `getDocument` response data contains `sync_id`
    iff the protocol is RR or RRA, omitted for R.  False: `get_file_content`
    always passes the freshly drawn id to `create_sync_response`, which puts
    it in the data dict unconditionally — here an authenticated protocol-R
    call whose response still carries `sync_id`. -/
theorem C1_counterexample :
    (Dispatcher.get_file_content sampleEnv sampleD "alice" "pw" "10.0.0.1" "R"
        "id-1" 7).2.success = true ∧
    responseHasField
      (Dispatcher.get_file_content sampleEnv sampleD "alice" "pw" "10.0.0.1"
        "R" "id-1" 7).2 "sync_id" = true := by
  decide

/-- C1 amended: every authenticated `get_file_content` response carries a
    `sync_id` in its data, for all three protocols alike; what is conditional
    on RR/RRA is only the ledger entry — the drawn id lands in
    `sync_records` exactly when the protocol is RR or RRA. -/
theorem C1_sync_id_always_present (env : Env) (d : Dispatcher)
    (u p ip proto nid : String) (now : Nat)
    (hauth : d.authenticate env u p = true)
    (hfresh : lookupD d.sync_records nid = none) :
    responseHasField (d.get_file_content env u p ip proto nid now).2 "sync_id"
        = true ∧
    memD ((d.get_file_content env u p ip proto nid now).1).sync_records nid
        = (proto == "RR" || proto == "RRA") := by
  unfold Dispatcher.get_file_content
  simp only [hauth, Bool.not_true, Bool.false_eq_true, if_false]
  constructor
  · simp [create_sync_response, create_response, responseHasField, memD,
      lookupD]
  · cases h : (proto == "RR" || proto == "RRA") with
    | true => simp [h, memD, lookupD_insertD_self]
    | false => simp [h, memD, hfresh]

/-- Witness for the amended C1 at a concrete authenticated R-protocol call. -/
theorem C1_witness :
    responseHasField
      (Dispatcher.get_file_content sampleEnv sampleD "alice" "pw" "10.0.0.1"
        "R" "id-1" 7).2 "sync_id" = true ∧
    memD ((Dispatcher.get_file_content sampleEnv sampleD "alice" "pw"
        "10.0.0.1" "R" "id-1" 7).1).sync_records "id-1"
        = ("R" == "RR" || "R" == "RRA") :=
  C1_sync_id_always_present sampleEnv sampleD "alice" "pw" "10.0.0.1" "R"
    "id-1" 7 (by decide) (by decide)

/-- Ledger state after an authenticated RR `get_file_content` drew id `s1`
    at tick 1 against the sample dispatcher. -/
def c2_d1 : Dispatcher :=
  (Dispatcher.get_file_content sampleEnv sampleD "alice" "pw" "10.0.0.1" "RR"
    "s1" 1).1

/-- Ledger state after the first `confirm_sync` of `s1` at tick 5. -/
def c2_d2 : Dispatcher :=
  (Dispatcher.confirm_sync sampleEnv c2_d1 "alice" "pw" "s1" "10.0.0.1" 5).1

/-- The record of `s1` after the first confirmation: confirmed at tick 5. -/
def c2_record : SyncRecord :=
  { sync_id := "s1", client_ip := "10.0.0.1", username := "alice",
    request_time := 1, confirmed := true, acknowledged := false,
    confirmation_time := some 5, acknowledgment_time := none }

/-- C2: the claim says a second `confirm_sync` retains the first call's
    confirmation timestamp.  False: `confirm_sync` re-stamps
    `confirmation_time` with the current clock unconditionally — after
    confirming at tick 5, re-confirming at tick 9 leaves timestamp 9,
    not 5. -/
theorem C2_counterexample :
    lookupD c2_d2.sync_records "s1" = some c2_record ∧
    (Dispatcher.confirm_sync sampleEnv c2_d2 "alice" "pw" "s1" "10.0.0.1"
        9).2.success = true ∧
    (lookupD ((Dispatcher.confirm_sync sampleEnv c2_d2 "alice" "pw" "s1"
        "10.0.0.1" 9).1).sync_records "s1").map SyncRecord.confirmation_time
      = some (some 9) := by
  decide

/-- C2 amended: re-confirming an already-confirmed operation succeeds and
    keeps `confirmed = true`, but the confirmation timestamp is overwritten
    with the later call's clock (last-writer-wins, not first-writer-wins). -/
theorem C2_reconfirm_overwrites_timestamp (env : Env) (d : Dispatcher)
    (u p sid ip : String) (r : SyncRecord) (t2 : Nat)
    (hauth : d.authenticate env u p = true)
    (hrec : lookupD d.sync_records sid = some r) :
    (d.confirm_sync env u p sid ip t2).2.success = true ∧
    lookupD ((d.confirm_sync env u p sid ip t2).1).sync_records sid =
      some { r with confirmed := true, confirmation_time := some t2 } := by
  unfold Dispatcher.confirm_sync
  simp [hauth, memD, hrec, lookupD_insertD_self, create_response]

/-- Witness for the amended C2: the concrete double confirmation at ticks
    5 then 9. -/
theorem C2_witness :
    (Dispatcher.confirm_sync sampleEnv c2_d2 "alice" "pw" "s1" "10.0.0.1"
        9).2.success = true ∧
    lookupD ((Dispatcher.confirm_sync sampleEnv c2_d2 "alice" "pw" "s1"
        "10.0.0.1" 9).1).sync_records "s1" =
      some { c2_record with confirmed := true, confirmation_time := some 9 } :=
  C2_reconfirm_overwrites_timestamp sampleEnv c2_d2 "alice" "pw" "s1"
    "10.0.0.1" c2_record 9 (by decide) (by decide)

/-- C3: the claim says every method name outside the four remote operations
    gets a failure response from `handle_request` with no handler invoked.
    False: the reflection dispatch (`hasattr`/`getattr`) invokes any callable
    attribute — here `authenticate`, which is not one of the four, is
    routed to invocation. -/
theorem C3_counterexample :
    handle_request_route "authenticate" = RouteResult.invoke "authenticate" ∧
    "authenticate" ∉ remoteOperations := by
  decide

/-- C3 amended: `handle_request` fails without invoking anything only for
    names that are not attributes of the dispatcher; all four remote
    operations are invokable, and the closed four-operation restriction is
    enforced only by the HTTP layer's `ENDPOINTS` table, whose values are
    exactly the four operations.  Other callable attributes (such as
    `authenticate`) are invokable too. -/
theorem C3_route_openness :
    (∀ m, lookupD dispatcherAttrs m = none →
      handle_request_route m =
        RouteResult.failure ("Method \x27" ++ m ++ "\x27 not found")) ∧
    (∀ m, m ∈ remoteOperations → handle_request_route m = RouteResult.invoke m) ∧
    ENDPOINTS.map Prod.snd = remoteOperations := by
  refine ⟨?_, ?_, by decide⟩
  · intro m h
    simp [handle_request_route, h]
  · intro m hm
    fin_cases hm <;> decide

/-- Witness for the amended C3: an unknown name fails, a remote operation
    routes to its handler. -/
theorem C3_witness :
    handle_request_route "frobnicate" =
      RouteResult.failure ("Method \x27" ++ "frobnicate" ++ "\x27 not found") ∧
    handle_request_route "confirm_sync" = RouteResult.invoke "confirm_sync" :=
  ⟨C3_route_openness.1 "frobnicate" (by decide),
   C3_route_openness.2.1 "confirm_sync" (by decide)⟩

/-- First message of a public MD5 collision pair: 72 printable ASCII bytes. -/
def textColl1 : List Nat :=
  [84, 69, 88, 84, 67, 79, 76, 76, 66, 89, 102, 71, 105, 74, 85, 69, 84, 72,
   81, 52, 104, 65, 99, 75, 83, 77, 100, 53, 122, 89, 112, 103, 113, 102, 49,
   89, 82, 68, 104, 107, 109, 120, 72, 107, 104, 80, 87, 112, 116, 114, 107,
   111, 121, 122, 50, 56, 119, 110, 73, 57, 86, 48, 97, 72, 101, 65, 117, 97,
   75, 110, 97, 107]

/-- Second message of the collision pair: differs from `textColl1` in one
    byte (index 21: 65 vs 69), same MD5 digest. -/
def textColl2 : List Nat :=
  [84, 69, 88, 84, 67, 79, 76, 76, 66, 89, 102, 71, 105, 74, 85, 69, 84, 72,
   81, 52, 104, 69, 99, 75, 83, 77, 100, 53, 122, 89, 112, 103, 113, 102, 49,
   89, 82, 68, 104, 107, 109, 120, 72, 107, 104, 80, 87, 112, 116, 114, 107,
   111, 121, 122, 50, 56, 119, 110, 73, 57, 86, 48, 97, 72, 101, 65, 117, 97,
   75, 110, 97, 107]

/-- C4: the claim says distinct byte contents always yield distinct
    fingerprints.  False: the fingerprint is an MD5 hexdigest and MD5 has
    collisions — overwriting one message of a public ASCII collision pair
    with the other changes the content but leaves `get_version` unchanged. -/
theorem C4_counterexample :
    textColl1 ≠ textColl2 ∧
    ((FileHandler.update_content { content := textColl1, lastModified := 0 }
        textColl2 1).1).get_version =
      FileHandler.get_version { content := textColl1, lastModified := 0 } := by
  constructor
  · decide
  · decide

/-- C4 amended: the fingerprint is a deterministic function of the byte
    content alone — equal contents give equal fingerprints, the fingerprint
    after a write depends only on the written bytes, and rewriting identical
    bytes leaves it unchanged.  Distinct contents, however, need not give
    distinct fingerprints: the hash is MD5, whose collisions exist. -/
theorem C4_fingerprint_deterministic :
    (∀ fh1 fh2 : FileHandler, fh1.content = fh2.content →
        fh1.get_version = fh2.get_version) ∧
    (∀ (fh : FileHandler) (c : List Nat) (now : Nat),
        ((fh.update_content c now).1).get_version = MD5.hexdigest c) ∧
    (∀ (fh : FileHandler) (now : Nat),
        ((fh.update_content fh.content now).1).get_version = fh.get_version) := by
  refine ⟨?_, fun fh c now => rfl, fun fh now => rfl⟩
  intro fh1 fh2 h
  simp [FileHandler.get_version, h]

/-- Witness for the amended C4 at a concrete one-byte content. -/
theorem C4_witness :
    FileHandler.get_version { content := [104], lastModified := 0 } =
      FileHandler.get_version { content := [104], lastModified := 5 } :=
  C4_fingerprint_deterministic.1 { content := [104], lastModified := 0 }
    { content := [104], lastModified := 5 } rfl

/-- Shared lemma: every operation whose credential check fails returns the
    authentication-failure response and leaves the state untouched. -/
theorem step_auth_failure (env : Env) (d : Dispatcher) (op : Op)
    (hfail : verify_user env.hashFn op.username op.password d.users = false) :
    d.step env op =
      (d, create_response false none (some "Authentication failed") op.now) := by
  cases op <;>
    simp [Op.username, Op.password] at hfail <;>
    simp [Dispatcher.step, Dispatcher.get_file_content,
      Dispatcher.check_master_version, Dispatcher.confirm_sync,
      Dispatcher.acknowledge_sync, Dispatcher.authenticate, Op.now, hfail]

/-- C5 (confirmed): whichever of the four operations is called, an
    authentication failure (wrong password, unknown user, or absent
    credentials — `verify_user` false for any reason) returns the failure
    response with the authentication error and leaves the dispatcher state,
    ledger and document store included, exactly unchanged. -/
theorem C5_auth_failure_frame (env : Env) (d : Dispatcher) (op : Op)
    (hfail : verify_user env.hashFn op.username op.password d.users = false) :
    d.step env op =
      (d, create_response false none (some "Authentication failed") op.now) :=
  step_auth_failure env d op hfail

/-- Witness for C5: a concrete `confirm_sync` with a wrong password. -/
theorem C5_witness :
    Dispatcher.step sampleEnv sampleD
        (Op.confirmSync "alice" "wrong" "s1" "10.0.0.1" 3) =
      (sampleD, create_response false none (some "Authentication failed") 3) :=
  C5_auth_failure_frame sampleEnv sampleD
    (Op.confirmSync "alice" "wrong" "s1" "10.0.0.1" 3) (by decide)

/-- C6 (confirmed): an authenticated `confirm_sync` or `acknowledge_sync`
    on a sync id never opened returns the unknown-sync-id failure and leaves
    the ledger (indeed the whole state) unchanged. -/
theorem C6_unknown_sync_id (env : Env) (d : Dispatcher)
    (u p sid ip : String) (now : Nat)
    (hauth : d.authenticate env u p = true)
    (hmiss : lookupD d.sync_records sid = none) :
    d.confirm_sync env u p sid ip now =
      (d, create_response false none (some ("Unknown sync ID: " ++ sid)) now) ∧
    d.acknowledge_sync env u p sid ip now =
      (d, create_response false none (some ("Unknown sync ID: " ++ sid)) now) := by
  constructor <;>
    simp [Dispatcher.confirm_sync, Dispatcher.acknowledge_sync, hauth, memD,
      hmiss]

/-- Witness for C6 at a concrete never-opened id. -/
theorem C6_witness :
    Dispatcher.confirm_sync sampleEnv sampleD "alice" "pw" "nope" "10.0.0.1"
        3 =
      (sampleD,
       create_response false none (some ("Unknown sync ID: " ++ "nope")) 3) ∧
    Dispatcher.acknowledge_sync sampleEnv sampleD "alice" "pw" "nope"
        "10.0.0.1" 3 =
      (sampleD,
       create_response false none (some ("Unknown sync ID: " ++ "nope")) 3) :=
  C6_unknown_sync_id sampleEnv sampleD "alice" "pw" "nope" "10.0.0.1" 3
    (by decide) (by decide)

/-- C7 (confirmed): an authenticated protocol-R `get_file_content` leaves
    the dispatcher state — in particular `sync_records` — unchanged, and an
    authenticated `confirm_sync` with the id drawn in that call (fresh, as
    UUIDs are) fails as unknown, still without touching the state. -/
theorem C7_protocol_R_no_ledger (env : Env) (d : Dispatcher)
    (u p ip nid u2 p2 ip2 : String) (t1 t2 : Nat)
    (hauth : d.authenticate env u p = true)
    (hauth2 : d.authenticate env u2 p2 = true)
    (hfresh : lookupD d.sync_records nid = none) :
    (d.get_file_content env u p ip "R" nid t1).1 = d ∧
    Dispatcher.confirm_sync env ((d.get_file_content env u p ip "R" nid t1).1)
        u2 p2 nid ip2 t2 =
      (d, create_response false none (some ("Unknown sync ID: " ++ nid)) t2) := by
  have h1 : (d.get_file_content env u p ip "R" nid t1).1 = d := by
    simp [Dispatcher.get_file_content, hauth]
  refine ⟨h1, ?_⟩
  rw [h1]
  simp [Dispatcher.confirm_sync, hauth2, memD, hfresh]

/-- Witness for C7 at a concrete authenticated R-protocol call. -/
theorem C7_witness :
    (Dispatcher.get_file_content sampleEnv sampleD "alice" "pw" "10.0.0.1"
        "R" "id-9" 2).1 = sampleD ∧
    Dispatcher.confirm_sync sampleEnv
        ((Dispatcher.get_file_content sampleEnv sampleD "alice" "pw"
          "10.0.0.1" "R" "id-9" 2).1) "alice" "pw" "id-9" "10.0.0.1" 4 =
      (sampleD,
       create_response false none (some ("Unknown sync ID: " ++ "id-9")) 4) :=
  C7_protocol_R_no_ledger sampleEnv sampleD "alice" "pw" "10.0.0.1" "id-9"
    "alice" "pw" "10.0.0.1" 2 4 (by decide) (by decide) (by decide)

/-- Shared lemma: one operation step never regresses the `confirmed` or
    `acknowledged` flag of a ledger record, provided the step does not draw
    that record's id as a fresh UUID (a `get_file_content` whose freshly
    drawn id collided with an existing one would overwrite the record). -/
theorem step_preserves_flags (env : Env) (d : Dispatcher) (op : Op)
    (id : String) (r : SyncRecord)
    (hne : op.newId ≠ some id)
    (hr : lookupD d.sync_records id = some r) :
    ∃ r2, lookupD ((d.step env op).1).sync_records id = some r2 ∧
      (r.confirmed = true → r2.confirmed = true) ∧
      (r.acknowledged = true → r2.acknowledged = true) := by
  cases op with
  | getFile u p ip proto nid t =>
      have hnid : nid ≠ id := by
        intro h
        exact hne (by simp [Op.newId, h])
      cases hauth : d.authenticate env u p with
      | false =>
          exact ⟨r, by simp [Dispatcher.step, Dispatcher.get_file_content,
            hauth, hr], fun h => h, fun h => h⟩
      | true =>
          cases hproto : (proto == "RR" || proto == "RRA") with
          | true =>
              exact ⟨r, by simp [Dispatcher.step, Dispatcher.get_file_content,
                hauth, hproto, lookupD_insertD_ne _ _ _ _ hnid, hr],
                fun h => h, fun h => h⟩
          | false =>
              exact ⟨r, by simp [Dispatcher.step, Dispatcher.get_file_content,
                hauth, hproto, hr], fun h => h, fun h => h⟩
  | checkVersion u p ip t =>
      refine ⟨r, ?_, fun h => h, fun h => h⟩
      cases hauth : d.authenticate env u p <;>
        simp [Dispatcher.step, Dispatcher.check_master_version, hauth, hr]
  | confirmSync u p sid ip t =>
      cases hauth : d.authenticate env u p with
      | false =>
          exact ⟨r, by simp [Dispatcher.step, Dispatcher.confirm_sync, hauth,
            hr], fun h => h, fun h => h⟩
      | true =>
          cases hlk : lookupD d.sync_records sid with
          | none =>
              exact ⟨r, by simp [Dispatcher.step, Dispatcher.confirm_sync,
                hauth, memD, hlk, hr], fun h => h, fun h => h⟩
          | some record =>
              by_cases hsid : sid = id
              · subst hsid
                have hrec : record = r := by
                  rw [hr] at hlk
                  exact (Option.some.inj hlk).symm
                subst hrec
                refine ⟨{ record with confirmed := true, confirmation_time := some t },
                  ?_, ?_, ?_⟩
                · simp [Dispatcher.step, Dispatcher.confirm_sync, hauth, memD,
                    hlk, lookupD_insertD_self]
                · intro h
                  rfl
                · intro h
                  simpa using h
              · exact ⟨r, by simp [Dispatcher.step, Dispatcher.confirm_sync,
                  hauth, memD, hlk, lookupD_insertD_ne _ _ _ _ hsid, hr],
                  fun h => h, fun h => h⟩
  | ackSync u p sid ip t =>
      cases hauth : d.authenticate env u p with
      | false =>
          exact ⟨r, by simp [Dispatcher.step, Dispatcher.acknowledge_sync,
            hauth, hr], fun h => h, fun h => h⟩
      | true =>
          cases hlk : lookupD d.sync_records sid with
          | none =>
              exact ⟨r, by simp [Dispatcher.step, Dispatcher.acknowledge_sync,
                hauth, memD, hlk, hr], fun h => h, fun h => h⟩
          | some record =>
              by_cases hsid : sid = id
              · subst hsid
                have hrec : record = r := by
                  rw [hr] at hlk
                  exact (Option.some.inj hlk).symm
                subst hrec
                refine ⟨{ record with acknowledged := true, acknowledgment_time := some t },
                  ?_, ?_, ?_⟩
                · simp [Dispatcher.step, Dispatcher.acknowledge_sync, hauth,
                    memD, hlk, lookupD_insertD_self]
                · intro h
                  simpa using h
                · intro h
                  rfl
              · exact ⟨r, by simp [Dispatcher.step, Dispatcher.acknowledge_sync,
                  hauth, memD, hlk, lookupD_insertD_ne _ _ _ _ hsid, hr],
                  fun h => h, fun h => h⟩

/-- C8 (confirmed): ledger flags are monotonic.  A record stored by an
    authenticated RR/RRA `get_file_content` starts with both flags false;
    and along any sequence of the four operations whose fresh UUIDs never
    collide with a tracked record's id, a flag once true stays true. -/
theorem C8_flags_monotonic (env : Env) :
    (∀ (d : Dispatcher) (u p ip nid proto : String) (t : Nat),
        d.authenticate env u p = true →
        (proto == "RR" || proto == "RRA") = true →
        ∃ r0, lookupD ((d.get_file_content env u p ip proto nid
            t).1).sync_records nid = some r0 ∧
          r0.confirmed = false ∧ r0.acknowledged = false) ∧
    (∀ (d : Dispatcher) (ops : List Op) (id : String) (r : SyncRecord),
        lookupD d.sync_records id = some r →
        (∀ op ∈ ops, Op.newId op ≠ some id) →
        ∃ r2, lookupD (d.runOps env ops).sync_records id = some r2 ∧
          (r.confirmed = true → r2.confirmed = true) ∧
          (r.acknowledged = true → r2.acknowledged = true)) := by
  constructor
  · intro d u p ip nid proto t hauth hproto
    refine ⟨SyncRecord.opened nid ip u t, ?_, rfl, rfl⟩
    simp [Dispatcher.get_file_content, hauth, hproto, lookupD_insertD_self]
  · intro d ops id r hr hfresh
    induction ops generalizing d r with
    | nil => exact ⟨r, by simpa [Dispatcher.runOps] using hr, fun h => h,
        fun h => h⟩
    | cons op rest ih =>
        obtain ⟨r1, hr1, hc1, ha1⟩ := step_preserves_flags env d op id r
          (hfresh op (List.mem_cons_self op rest)) hr
        obtain ⟨r2, hr2, hc2, ha2⟩ := ih ((d.step env op).1) r1 hr1
          (fun o ho => hfresh o (List.mem_cons_of_mem op ho))
        refine ⟨r2, ?_, fun h => hc2 (hc1 h), fun h => ha2 (ha1 h)⟩
        simpa [Dispatcher.runOps] using hr2

/-- Witness for C8: a fresh RR record starts unconfirmed, and the confirmed
    record of the C2 trace stays confirmed across a later acknowledge step. -/
theorem C8_witness :
    (∃ r0, lookupD ((Dispatcher.get_file_content sampleEnv sampleD "alice"
        "pw" "10.0.0.1" "RR" "w1" 1).1).sync_records "w1" = some r0 ∧
      r0.confirmed = false ∧ r0.acknowledged = false) ∧
    (∃ r2, lookupD (Dispatcher.runOps sampleEnv c2_d2
        [Op.ackSync "alice" "pw" "s1" "10.0.0.1" 7]).sync_records "s1"
        = some r2 ∧
      (c2_record.confirmed = true → r2.confirmed = true) ∧
      (c2_record.acknowledged = true → r2.acknowledged = true)) :=
  ⟨(C8_flags_monotonic sampleEnv).1 sampleD "alice" "pw" "10.0.0.1" "w1" "RR"
      1 (by decide) (by decide),
   (C8_flags_monotonic sampleEnv).2 c2_d2
      [Op.ackSync "alice" "pw" "s1" "10.0.0.1" 7] "s1" c2_record (by decide)
      (by intro op hop; fin_cases hop <;> decide)⟩

/-- C9 (confirmed): a wrong password for an existing user and any password
    for a nonexistent user are indistinguishable to the caller — for any two
    operations carrying such credentials at the same clock tick, the two
    responses are byte-for-byte identical, with error text
    `Authentication failed` in both. -/
theorem C9_auth_indistinguishable (env : Env) (d : Dispatcher)
    (table : List (String × String)) (u1 p1 u2 p2 h1v : String)
    (op1 op2 : Op)
    (htab : d.users = some table)
    (hexist : lookupD table u1 = some h1v)
    (hwrong : (h1v == env.hashFn p1) = false)
    (hnouser : lookupD table u2 = none)
    (hu1 : op1.username = u1) (hp1 : op1.password = p1)
    (hu2 : op2.username = u2) (hp2 : op2.password = p2)
    (hnow : op1.now = op2.now) :
    (d.step env op1).2 = (d.step env op2).2 ∧
    (d.step env op1).2.error = some "Authentication failed" := by
  have hv1 : verify_user env.hashFn op1.username op1.password d.users
      = false := by
    simp [verify_user, htab, hu1, hp1, hexist, hwrong]
  have hv2 : verify_user env.hashFn op2.username op2.password d.users
      = false := by
    simp [verify_user, htab, hu2, hp2, hnouser]
  rw [step_auth_failure env d op1 hv1, step_auth_failure env d op2 hv2]
  simp [create_response, hnow]

/-- Witness for C9: wrong password for `alice` versus any password for the
    absent `mallory`, same tick, identical responses. -/
theorem C9_witness :
    (sampleD.step sampleEnv (Op.checkVersion "alice" "bad" "10.0.0.1" 3)).2 =
      (sampleD.step sampleEnv (Op.checkVersion "mallory" "x" "10.0.0.2" 3)).2 ∧
    (sampleD.step sampleEnv
        (Op.checkVersion "alice" "bad" "10.0.0.1" 3)).2.error =
      some "Authentication failed" :=
  C9_auth_indistinguishable sampleEnv sampleD sampleUsers "alice" "bad"
    "mallory" "x" "pw" (Op.checkVersion "alice" "bad" "10.0.0.1" 3)
    (Op.checkVersion "mallory" "x" "10.0.0.2" 3) rfl (by decide) (by decide)
    (by decide) rfl rfl rfl rfl rfl

/-- C10 (confirmed): the ledger does not record the opening protocol —
    a record opened under RRA accepts `confirm_sync` and a record opened
    under RR accepts `acknowledge_sync`, both with success. -/
theorem C10_protocol_agnostic_ledger (env : Env) (d : Dispatcher)
    (u p ip nid u2 p2 ip2 : String) (t1 t2 : Nat)
    (hauth1 : d.authenticate env u p = true)
    (hauth2 : d.authenticate env u2 p2 = true) :
    (Dispatcher.confirm_sync env
        ((d.get_file_content env u p ip "RRA" nid t1).1) u2 p2 nid ip2
        t2).2.success = true ∧
    (Dispatcher.acknowledge_sync env
        ((d.get_file_content env u p ip "RR" nid t1).1) u2 p2 nid ip2
        t2).2.success = true := by
  have hauth2v : verify_user env.hashFn u2 p2 d.users = true := hauth2
  constructor
  · have hd1 : (d.get_file_content env u p ip "RRA" nid t1).1 = { d with sync_records := insertD d.sync_records nid (SyncRecord.opened nid ip u t1) } := by
      simp [Dispatcher.get_file_content, hauth1]
    rw [hd1]
    simp [Dispatcher.confirm_sync, Dispatcher.authenticate, hauth2v, memD,
      lookupD_insertD_self, create_response]
  · have hd1 : (d.get_file_content env u p ip "RR" nid t1).1 = { d with sync_records := insertD d.sync_records nid (SyncRecord.opened nid ip u t1) } := by
      simp [Dispatcher.get_file_content, hauth1]
    rw [hd1]
    simp [Dispatcher.acknowledge_sync, Dispatcher.authenticate, hauth2v, memD,
      lookupD_insertD_self, create_response]

/-- Witness for C10 at concrete authenticated calls. -/
theorem C10_witness :
    (Dispatcher.confirm_sync sampleEnv
        ((sampleD.get_file_content sampleEnv "alice" "pw" "10.0.0.1" "RRA"
          "x1" 1).1) "alice" "pw" "x1" "10.0.0.1" 2).2.success = true ∧
    (Dispatcher.acknowledge_sync sampleEnv
        ((sampleD.get_file_content sampleEnv "alice" "pw" "10.0.0.1" "RR"
          "x1" 1).1) "alice" "pw" "x1" "10.0.0.1" 2).2.success = true :=
  C10_protocol_agnostic_ledger sampleEnv sampleD "alice" "pw" "10.0.0.1" "x1"
    "alice" "pw" "10.0.0.1" 1 2 (by decide) (by decide)
